import Mathlib

/-!
Shallow embedding of the aitrade-bot repository (Binance Futures testnet
trading bot): the exchange client adapter (`binance_client.py`), the bot
orchestrator (`trading_bot.py`) and the interactive shell (`cli.py`).

The remote exchange API and the vendor SDK are external: every remote call
is modelled by passing its outcome in as an `Except` value (success payload
or raised exception).  Python `float` quantities/prices are modelled as `ℚ`.
Logging and `print` calls have no effect on program state and are modelled
only where the printed content itself is specified (performance metrics).
-/

/-- A remote/transport failure raised by the vendor SDK
(`BinanceAPIException` or any other exception). -/
inductive RemoteError where
  | api (msg : String)
  | network (msg : String)
  deriving Repr, DecidableEq

/-- An error escaping an adapter method of `BinanceFuturesClient`: either a
re-raised transport failure, or the `ValueError("Symbol ... not found")`
raised by `get_symbol_info` (the spec's `NotFoundError`). -/
inductive ClientError where
  | remote (e : RemoteError)
  | notFound (symbol : String)
  deriving Repr, DecidableEq

/-- The fields of the symbol-metadata record used by this program
(`symbol_info['symbol']`, `symbol_info['status']`); the remaining exchange
trading-rule metadata is passed through opaquely and not modelled. -/
structure SymbolInfo where
  symbol : String
  status : String
  deriving Repr, DecidableEq

/-- The fields of the exchange's order-confirmation record that the
orchestrator reads (`order['orderId']`, `order['status']`). -/
structure OrderResp where
  orderId : Nat
  status : String
  deriving Repr, DecidableEq

/-- A position record from `futures_position_information()`;
`positionAmt` holds the value of `float(pos['positionAmt'])`. -/
structure PositionRec where
  symbol : String
  positionAmt : ℚ
  entryPrice : ℚ
  markPrice : ℚ
  unRealizedProfit : ℚ
  deriving Repr, DecidableEq

/-- The keyword arguments transmitted to `client.futures_create_order`;
a field is `none` when the Python call site does not pass that keyword. -/
structure FuturesOrderRequest where
  symbol : String
  side : String
  type : String
  quantity : ℚ
  price : Option ℚ := none
  stopPrice : Option ℚ := none
  timeInForce : Option String := none
  reduceOnly : Option Bool := none
  deriving Repr, DecidableEq

namespace BinanceFuturesClient

set_option linter.unusedVariables false in
/-- `BinanceFuturesClient.place_stop_limit_order`, lines 154-185 of
`binance_client.py`: the request it builds for `futures_create_order`.
The call site passes `symbol`, `side`, `type='STOP_MARKET'`, `quantity`,
`stopPrice=stop_price` and `timeInForce=time_in_force`; the `price`
parameter of the method does not appear among the keywords. -/
def place_stop_limit_order (symbol side : String) (quantity price stop_price : ℚ)
    (time_in_force : String := "GTC") : FuturesOrderRequest :=
  { symbol := symbol
    side := side
    type := "STOP_MARKET"
    quantity := quantity
    stopPrice := some stop_price
    timeInForce := some time_in_force }

/-- `BinanceFuturesClient.get_symbol_info`, lines 55-65 of
`binance_client.py`: given the outcome of `futures_exchange_info()` (its
`symbols` list on success), scan for the first record whose `symbol` field
matches; raise `ValueError` (modelled `ClientError.notFound`) when none
does; re-raise a transport failure unchanged. -/
def get_symbol_info (fetch : Except RemoteError (List SymbolInfo))
    (symbol : String) : Except ClientError SymbolInfo :=
  match fetch with
  | .error e => .error (.remote e)
  | .ok symbols =>
    match symbols.find? (fun si => si.symbol == symbol) with
    | some si => .ok si
    | none => .error (.notFound symbol)

/-- `BinanceFuturesClient.get_positions`, lines 231-246 of
`binance_client.py`: given the list returned by
`futures_position_information()`, keep only the requested symbol when one
is given, then filter out positions whose `float(positionAmt)` is zero. -/
def get_positions (positions : List PositionRec)
    (symbol : Option String := none) : List PositionRec :=
  let positions : List PositionRec := match symbol with
    | some sym => positions.filter (fun pos => pos.symbol == sym)
    | none => positions
  positions.filter (fun pos => pos.positionAmt != 0)

end BinanceFuturesClient

/-- The mutable state of `TradingBot` (`trading_bot.py`, `__init__`,
lines 14-25): the running flag and the three performance counters. -/
structure BotState where
  running : Bool
  trade_count : Nat
  successful_trades : Nat
  failed_trades : Nat
  deriving Repr, DecidableEq

/-- The state built by `TradingBot.__init__`: flag down, all counters zero. -/
def initialBotState : BotState :=
  { running := false, trade_count := 0, successful_trades := 0, failed_trades := 0 }

/-- What `display_performance_metrics` prints: either the no-trades message
or the metrics report (total, successful, failed, success rate, and the
`f-string` rendering `f"{success_rate:.2f}%"` of the rate). -/
inductive MetricsOutput where
  | noTrades
  | report (totalTrades successfulTrades failedTrades : Nat)
      (successRate : ℚ) (successRateStr : String)
  deriving Repr, DecidableEq

/-- Python's fixed-point rendering `f"{q:.2f}"` of a nonnegative value:
round `q` to two decimal places and print with exactly two fractional
digits.  The scaled rounding `⌊100q + 1/2⌋` is written directly on the
reduced numerator and denominator of `q` so that it evaluates by kernel
reduction: `⌊100q + 1/2⌋ = ⌊(200 num + den) / (2 den)⌋`.  (CPython rounds
the nearest binary double, ties to even; ties arise for the program's rate
`100*s/t` only when the double lands exactly on a midpoint — immaterial
for the values proved here.) -/
def formatFixed2 (q : ℚ) : String :=
  let c : ℤ := Int.fdiv (200 * q.num + (q.den : ℤ)) (2 * (q.den : ℤ))
  toString (c / 100) ++ "." ++ (if c % 100 < 10 then "0" else "") ++ toString (c % 100)

namespace TradingBot

/-- `TradingBot.place_market_order`, lines 125-152 of `trading_bot.py`:
the adapter call's outcome is passed in; on success the trade and
successful-trade counters are incremented and `True` is returned; on any
exception the trade and failed-trade counters are incremented and `False`
is returned — the exception is caught, not re-raised (the function is
total). -/
def place_market_order (s : BotState)
    (result : Except ClientError OrderResp) : BotState × Bool :=
  match result with
  | .ok _ =>
    ({ s with trade_count := s.trade_count + 1
              successful_trades := s.successful_trades + 1 }, true)
  | .error _ =>
    ({ s with trade_count := s.trade_count + 1
              failed_trades := s.failed_trades + 1 }, false)

/-- `TradingBot.place_limit_order`, lines 154-183 of `trading_bot.py`:
same counter discipline as `place_market_order`. -/
def place_limit_order (s : BotState)
    (result : Except ClientError OrderResp) : BotState × Bool :=
  match result with
  | .ok _ =>
    ({ s with trade_count := s.trade_count + 1
              successful_trades := s.successful_trades + 1 }, true)
  | .error _ =>
    ({ s with trade_count := s.trade_count + 1
              failed_trades := s.failed_trades + 1 }, false)

/-- `TradingBot.cancel_order`, lines 185-201 of `trading_bot.py`: returns
`True`/`False` with the outcome, touches no counter. -/
def cancel_order (s : BotState)
    (result : Except ClientError OrderResp) : BotState × Bool :=
  match result with
  | .ok _ => (s, true)
  | .error _ => (s, false)

/-- `TradingBot.validate_symbol`, lines 236-243 of `trading_bot.py`: the
symbol-metadata lookup outcome is passed in; on success compare
`symbol_info['status']` with `'TRADING'`; any exception is swallowed
(a warning is logged) and `False` is returned — the function is total. -/
def validate_symbol (lookup : Except ClientError SymbolInfo) : Bool :=
  match lookup with
  | .ok symbol_info => symbol_info.status == "TRADING"
  | .error _ => false

/-- `TradingBot.display_performance_metrics`, lines 212-234 of
`trading_bot.py`: when `trade_count == 0` print the no-trades message and
return; otherwise compute `success_rate = successful/total*100` and print
the report with the rate rendered as `f"{success_rate:.2f}%"`. -/
def display_performance_metrics (s : BotState) : MetricsOutput :=
  if s.trade_count = 0 then .noTrades
  else
    let success_rate : ℚ := ((s.successful_trades : ℚ) / (s.trade_count : ℚ)) * 100
    .report s.trade_count s.successful_trades s.failed_trades
      success_rate (formatFixed2 success_rate ++ "%")

/-- `TradingBot.start`, lines 27-33 of `trading_bot.py`: set the running
flag and display the account snapshot (a remote read that writes no bot
state; its errors are caught inside `display_account_info`). -/
def start (s : BotState) : BotState :=
  { s with running := true }

/-- `TradingBot.stop`, lines 35-41 of `trading_bot.py`: clear the running
flag and display the performance snapshot (returned alongside the state). -/
def stop (s : BotState) : BotState × MetricsOutput :=
  let s := { s with running := false }
  (s, display_performance_metrics s)

end TradingBot

/-- One orchestrator operation, with the outcome of its remote call (when it
makes one) supplied as data.  The four display methods only read state and
print. -/
inductive BotOp where
  | placeMarket (result : Except ClientError OrderResp)
  | placeLimit (result : Except ClientError OrderResp)
  | cancelOrder (result : Except ClientError OrderResp)
  | validateSymbol (lookup : Except ClientError SymbolInfo)
  | displayAccountInfo
  | displayPositions
  | displayOpenOrders
  | displayPerformanceMetrics
  | start
  | stop
  deriving Repr

/-- State effect of each orchestrator operation (`trading_bot.py`): the
order-placement methods update counters per `TradingBot.place_market_order`
and `place_limit_order`; `cancel_order`, `validate_symbol` and the display
methods leave the state unchanged; `start`/`stop` toggle the flag. -/
def botStep (s : BotState) : BotOp → BotState
  | .placeMarket result => (TradingBot.place_market_order s result).1
  | .placeLimit result => (TradingBot.place_limit_order s result).1
  | .cancelOrder result => (TradingBot.cancel_order s result).1
  | .validateSymbol _ => s
  | .displayAccountInfo => s
  | .displayPositions => s
  | .displayOpenOrders => s
  | .displayPerformanceMetrics => s
  | .start => TradingBot.start s
  | .stop => (TradingBot.stop s).1

/-- The counter bookkeeping invariant: every attempted trade was counted as
exactly one of successful or failed. -/
def counterInv (s : BotState) : Prop :=
  s.trade_count = s.successful_trades + s.failed_trades

instance (s : BotState) : Decidable (counterInv s) := by
  unfold counterInv; infer_instance

/-- The user-facing error messages a market-order handler can print
(`cli.py`, `handle_buy_market` / `handle_sell_market`). -/
inductive CliError where
  | usage
  | invalidQuantity
  | invalidSymbol
  deriving Repr, DecidableEq

/-- A call from the shell into the orchestrator (and, through it, the
adapter); a handler's emitted call trace records these in order. -/
inductive BotCall where
  | validateSymbol (symbol : String)
  | placeMarketOrder (symbol side : String) (quantity : ℚ)
  deriving Repr, DecidableEq

/-- A concrete parser standing in for Python's `float` builtin on the plain
decimal strings the CLI deals with: optional sign, then digits with an
optional fractional part (`"12"`, `"-3.5"`, `".5"`); anything else —
`"abc"` in particular — fails.  The handler theorems are parametric in the
parse function, so nothing below depends on this instance's coverage of
`float`'s more exotic inputs (exponents, `inf`, `nan`). -/
def decimalRat? (s : String) : Option ℚ :=
  let cs := s.data
  let signAndDigits : ℚ × List Char :=
    match cs with
    | '-' :: rest => (-1, rest)
    | '+' :: rest => (1, rest)
    | _ => (1, cs)
  let sign := signAndDigits.1
  let body := signAndDigits.2
  let intPart := body.takeWhile Char.isDigit
  let afterInt := body.dropWhile Char.isDigit
  let digitsVal : List Char → ℚ := fun ds =>
    ((ds.foldl (fun a c => a * 10 + (c.toNat - 48)) 0 : Nat) : ℚ)
  match afterInt with
  | [] =>
    if intPart.isEmpty then none else some (sign * digitsVal intPart)
  | '.' :: afterDot =>
    let fracPart := afterDot.takeWhile Char.isDigit
    let afterFrac := afterDot.dropWhile Char.isDigit
    if afterFrac.isEmpty && !(intPart.isEmpty && fracPart.isEmpty) then
      some (sign * (digitsVal intPart + digitsVal fracPart / ((10 : ℚ) ^ fracPart.length)))
    else none
  | _ => none

/-- Python `str.strip()`: drop leading and trailing whitespace. -/
def pyStrip (cs : List Char) : List Char :=
  ((cs.dropWhile Char.isWhitespace).reverse.dropWhile Char.isWhitespace).reverse

/-- Helper for `pySplit`: walk the characters left to right, accumulating
the current token (reversed) and emitting it at each whitespace run. -/
def pySplitAux : List Char → List Char → List String
  | [], acc => if acc.isEmpty then [] else [String.mk acc.reverse]
  | c :: cs, acc =>
    if c.isWhitespace then
      if acc.isEmpty then pySplitAux cs []
      else String.mk acc.reverse :: pySplitAux cs []
    else pySplitAux cs (c :: acc)

/-- Python `str.split()` with no separator: split on whitespace runs,
never producing empty tokens. -/
def pySplit (s : String) : List String :=
  pySplitAux s.data []

/-- Python `str.lower()`. -/
def pyLower (s : String) : String :=
  String.mk (s.data.map Char.toLower)

/-- Python `str.upper()`. -/
def pyUpper (s : String) : String :=
  String.mk (s.data.map Char.toUpper)

namespace TradingBotCLI

/-- `TradingBotCLI.parse_command`, lines 59-68 of `cli.py`: strip the line,
split on whitespace runs, lowercase the verb, keep the rest as arguments. -/
def parse_command (command : String) : Option String × List String :=
  let parts := pySplit (String.mk (pyStrip command.data))
  match parts with
  | [] => (none, [])
  | cmd :: args => (some (pyLower cmd), args)

/-- `TradingBotCLI.handle_buy_market`, lines 97-114 of `cli.py`,
parametrised over Python's `float` builtin (`pyFloat`) and the boolean the
orchestrator's `validate_symbol` would return for a symbol (`validOf`).
Returns the ordered trace of orchestrator calls made and the error printed,
if any: arity check first, then `float(args[1])`, then `validate_symbol`,
and only then `place_market_order(symbol, "BUY", quantity)`. -/
def handle_buy_market (pyFloat : String → Option ℚ) (validOf : String → Bool)
    (args : List String) : List BotCall × Option CliError :=
  if args.length < 2 then ([], some .usage)
  else
    let symbol := pyUpper (args.getD 0 "")
    match pyFloat (args.getD 1 "") with
    | none => ([], some .invalidQuantity)
    | some quantity =>
      if validOf symbol then
        ([.validateSymbol symbol, .placeMarketOrder symbol "BUY" quantity], none)
      else
        ([.validateSymbol symbol], some .invalidSymbol)

/-- `TradingBotCLI.handle_sell_market`, lines 116-133 of `cli.py`: identical
to `handle_buy_market` except the side is `"SELL"`. -/
def handle_sell_market (pyFloat : String → Option ℚ) (validOf : String → Bool)
    (args : List String) : List BotCall × Option CliError :=
  if args.length < 2 then ([], some .usage)
  else
    let symbol := pyUpper (args.getD 0 "")
    match pyFloat (args.getD 1 "") with
    | none => ([], some .invalidQuantity)
    | some quantity =>
      if validOf symbol then
        ([.validateSymbol symbol, .placeMarketOrder symbol "SELL" quantity], none)
      else
        ([.validateSymbol symbol], some .invalidSymbol)

end TradingBotCLI

/-- The two orders accepted and one rejected in the C6 scenario. -/
def okOrder1 : OrderResp := { orderId := 1001, status := "FILLED" }

def okOrder2 : OrderResp := { orderId := 1002, status := "FILLED" }

def rejectedErr : ClientError :=
  .remote (.api "APIError -2019 Margin is insufficient")

/-- Bot state after three order attempts of which two succeed and one
fails, driven through the orchestrator's own operations. -/
def threeTradeState : BotState :=
  botStep (botStep (botStep initialBotState (.placeMarket (.ok okOrder1)))
    (.placeLimit (.ok okOrder2))) (.placeMarket (.error rejectedErr))

/-- A live (nonzero-size) position used as concrete test data. -/
def livePos : PositionRec :=
  { symbol := "BTCUSDT", positionAmt := 5, entryPrice := 100
    markPrice := 101, unRealizedProfit := 5 }

/-- A flat (zero-size) position used as concrete test data. -/
def flatPos : PositionRec :=
  { symbol := "ETHUSDT", positionAmt := 0, entryPrice := 2000
    markPrice := 2000, unRealizedProfit := 0 }

/-- C1: every `place_stop_limit_order(symbol, side, quantity, price,
stop_price, time_in_force)` call transmits a STOP_MARKET request carrying
`stop_price`, `symbol`, `side`, `quantity` and `time_in_force`; the `price`
parameter is accepted but never transmitted (no price keyword is sent, and
the transmitted request does not depend on `price`). -/
theorem place_stop_limit_order_is_stop_market (symbol side : String)
    (quantity price stop_price : ℚ) (time_in_force : String) :
    (BinanceFuturesClient.place_stop_limit_order symbol side quantity price
        stop_price time_in_force).type = "STOP_MARKET" ∧
    (BinanceFuturesClient.place_stop_limit_order symbol side quantity price
        stop_price time_in_force).stopPrice = some stop_price ∧
    (BinanceFuturesClient.place_stop_limit_order symbol side quantity price
        stop_price time_in_force).symbol = symbol ∧
    (BinanceFuturesClient.place_stop_limit_order symbol side quantity price
        stop_price time_in_force).side = side ∧
    (BinanceFuturesClient.place_stop_limit_order symbol side quantity price
        stop_price time_in_force).quantity = quantity ∧
    (BinanceFuturesClient.place_stop_limit_order symbol side quantity price
        stop_price time_in_force).timeInForce = some time_in_force ∧
    (BinanceFuturesClient.place_stop_limit_order symbol side quantity price
        stop_price time_in_force).price = none ∧
    (∀ price2 : ℚ,
      BinanceFuturesClient.place_stop_limit_order symbol side quantity price2
          stop_price time_in_force =
        BinanceFuturesClient.place_stop_limit_order symbol side quantity price
          stop_price time_in_force) :=
  ⟨rfl, rfl, rfl, rfl, rfl, rfl, rfl, fun _ => rfl⟩

/-- C2: the orchestrator's `place_market_order` and `place_limit_order` are
total (no exception escapes to the caller); on adapter success they bump
the trade and successful-trade counters and return `true`, on an adapter
exception they bump the trade and failed-trade counters and return
`false`. -/
theorem place_order_counts_and_returns (s : BotState) (o : OrderResp)
    (e : ClientError) :
    TradingBot.place_market_order s (.ok o) =
      ({ s with trade_count := s.trade_count + 1
                successful_trades := s.successful_trades + 1 }, true) ∧
    TradingBot.place_market_order s (.error e) =
      ({ s with trade_count := s.trade_count + 1
                failed_trades := s.failed_trades + 1 }, false) ∧
    TradingBot.place_limit_order s (.ok o) =
      ({ s with trade_count := s.trade_count + 1
                successful_trades := s.successful_trades + 1 }, true) ∧
    TradingBot.place_limit_order s (.error e) =
      ({ s with trade_count := s.trade_count + 1
                failed_trades := s.failed_trades + 1 }, false) :=
  ⟨rfl, rfl, rfl, rfl⟩

/-- C3: every position in the output of `get_positions` has nonzero
`positionAmt`, whatever list the remote API returned and whether or not a
symbol filter was requested. -/
theorem get_positions_excludes_zero (positions : List PositionRec)
    (symbol : Option String) (pos : PositionRec)
    (h : pos ∈ BinanceFuturesClient.get_positions positions symbol) :
    pos.positionAmt ≠ 0 := by
  unfold BinanceFuturesClient.get_positions at h
  have h2 := (List.mem_filter.mp h).2
  simpa [bne_iff_ne] using h2

/-- Witness for C3 at a concrete API response holding one live and one
flat position. -/
theorem get_positions_excludes_zero_witness :
    livePos ∈ BinanceFuturesClient.get_positions [livePos, flatPos] none ∧
    livePos.positionAmt ≠ 0 :=
  ⟨by decide, get_positions_excludes_zero [livePos, flatPos] none livePos (by decide)⟩

/-- C4: `validate_symbol` is total (it returns a boolean and swallows any
lookup exception); it returns `true` exactly when the lookup succeeded with
trading status `"TRADING"`, and returns the same `false` both on a
non-TRADING status and on a failed lookup. -/
theorem validate_symbol_total_spec :
    (∀ symbol_info : SymbolInfo,
      TradingBot.validate_symbol (.ok symbol_info) =
        (symbol_info.status == "TRADING")) ∧
    (∀ e : ClientError, TradingBot.validate_symbol (.error e) = false) ∧
    (∀ lookup : Except ClientError SymbolInfo,
      TradingBot.validate_symbol lookup = true ↔
        ∃ symbol_info, lookup = .ok symbol_info ∧
          symbol_info.status = "TRADING") := by
  refine ⟨fun _ => rfl, fun _ => rfl, fun lookup => ?_⟩
  cases lookup with
  | error e => simp [TradingBot.validate_symbol]
  | ok si => simp [TradingBot.validate_symbol, beq_iff_eq]

/-- C5: `display_performance_metrics` prints the no-trades message exactly
when the attempted-trade counter is zero; the branch computing the success
rate (the only division) is reached exactly when the counter is nonzero. -/
theorem display_metrics_no_trades_iff (s : BotState) :
    TradingBot.display_performance_metrics s = .noTrades ↔ s.trade_count = 0 := by
  unfold TradingBot.display_performance_metrics
  by_cases h : s.trade_count = 0 <;> simp [h]

/-- C6: whenever trades were attempted, the reported success rate is
`successful_trades / trade_count * 100`, rendered with two decimal places;
after two successful and one failed attempt the report reads `66.67%`. -/
theorem success_rate_formula :
    (∀ s : BotState, s.trade_count ≠ 0 →
      TradingBot.display_performance_metrics s =
        .report s.trade_count s.successful_trades s.failed_trades
          (((s.successful_trades : ℚ) / (s.trade_count : ℚ)) * 100)
          (formatFixed2 (((s.successful_trades : ℚ) / (s.trade_count : ℚ)) * 100)
            ++ "%")) ∧
    TradingBot.display_performance_metrics threeTradeState =
      .report 3 2 1 (200 / 3) "66.67%" := by
  have general : ∀ s : BotState, s.trade_count ≠ 0 →
      TradingBot.display_performance_metrics s =
        .report s.trade_count s.successful_trades s.failed_trades
          (((s.successful_trades : ℚ) / (s.trade_count : ℚ)) * 100)
          (formatFixed2 (((s.successful_trades : ℚ) / (s.trade_count : ℚ)) * 100)
            ++ "%") := by
    intro s h
    unfold TradingBot.display_performance_metrics
    rw [if_neg h]
  refine ⟨general, ?_⟩
  have hs : threeTradeState =
      { running := false, trade_count := 3, successful_trades := 2, failed_trades := 1 } := by
    decide
  have h2 := general threeTradeState (by decide)
  rw [h2, hs]
  have harg : ((((2 : ℕ) : ℚ)) / (((3 : ℕ) : ℚ))) * 100 =
      (⟨200, 3, by decide, by decide⟩ : ℚ) := by
    rw [Rat.mk'_eq_divInt, Rat.divInt_eq_div]
    push_cast
    norm_num
  have hfmt : formatFixed2 (⟨200, 3, by decide, by decide⟩ : ℚ) = "66.67" := by decide
  simp only [MetricsOutput.report.injEq]
  refine ⟨trivial, trivial, trivial, ?_, ?_⟩
  · rw [harg, Rat.mk'_eq_divInt, Rat.divInt_eq_div]
    norm_num
  · rw [harg, hfmt]
    decide

/-- Witness for C6: the general success-rate formula applied at the
concrete three-trade state, with its hypothesis discharged by
evaluation. -/
theorem success_rate_formula_witness :
    TradingBot.display_performance_metrics threeTradeState =
      .report threeTradeState.trade_count threeTradeState.successful_trades
        threeTradeState.failed_trades
        (((threeTradeState.successful_trades : ℚ) /
            (threeTradeState.trade_count : ℚ)) * 100)
        (formatFixed2 (((threeTradeState.successful_trades : ℚ) /
            (threeTradeState.trade_count : ℚ)) * 100) ++ "%") :=
  success_rate_formula.1 threeTradeState (by decide)

/-- C7: in `handle_buy_market` and `handle_sell_market`, when a quantity
argument is present but does not parse as a number, the handler prints the
quantity-format error and makes no orchestrator (hence no adapter) call:
the emitted call trace is empty.  The handlers are parametric in Python's
`float` builtin and in the orchestrator's symbol validation. -/
theorem market_handlers_bad_quantity_no_dispatch
    (pyFloat : String → Option ℚ) (validOf : String → Bool)
    (args : List String) (hlen : 2 ≤ args.length)
    (hqty : pyFloat (args.getD 1 "") = none) :
    TradingBotCLI.handle_buy_market pyFloat validOf args =
      ([], some .invalidQuantity) ∧
    TradingBotCLI.handle_sell_market pyFloat validOf args =
      ([], some .invalidQuantity) := by
  have hnot : ¬ args.length < 2 := by omega
  unfold TradingBotCLI.handle_buy_market TradingBotCLI.handle_sell_market
  rw [if_neg hnot, if_neg hnot, hqty]
  exact ⟨rfl, rfl⟩

/-- Witness for C7: the CLI line `buy_market BTCUSDT abc` parses to the
`buy_market` verb with arguments `["BTCUSDT", "abc"]`, whose quantity
`"abc"` fails to parse, so both handlers reject with the quantity error
and an empty call trace. -/
theorem market_handlers_bad_quantity_witness :
    TradingBotCLI.parse_command "buy_market BTCUSDT abc" =
      (some "buy_market", ["BTCUSDT", "abc"]) ∧
    decimalRat? "abc" = none ∧
    TradingBotCLI.handle_buy_market decimalRat? (fun _ => true)
      ["BTCUSDT", "abc"] = ([], some .invalidQuantity) ∧
    TradingBotCLI.handle_sell_market decimalRat? (fun _ => true)
      ["BTCUSDT", "abc"] = ([], some .invalidQuantity) :=
  ⟨by decide, by decide,
    (market_handlers_bad_quantity_no_dispatch decimalRat? (fun _ => true)
      ["BTCUSDT", "abc"] (by decide) (by decide)).1,
    (market_handlers_bad_quantity_no_dispatch decimalRat? (fun _ => true)
      ["BTCUSDT", "abc"] (by decide) (by decide)).2⟩

/-- C8: on a successful metadata fetch, `get_symbol_info` fails with the
not-found error exactly for symbols absent from the exchange metadata, and
for a present symbol it returns a metadata record of that symbol drawn
from the fetched list. -/
theorem get_symbol_info_found_or_not (symbols : List SymbolInfo)
    (symbol : String) :
    (symbol ∉ symbols.map SymbolInfo.symbol →
      BinanceFuturesClient.get_symbol_info (.ok symbols) symbol =
        .error (.notFound symbol)) ∧
    (symbol ∈ symbols.map SymbolInfo.symbol →
      ∃ si, BinanceFuturesClient.get_symbol_info (.ok symbols) symbol = .ok si ∧
        si ∈ symbols ∧ si.symbol = symbol) := by
  constructor
  · intro habs
    have hnone : symbols.find? (fun si => si.symbol == symbol) = none := by
      rw [List.find?_eq_none]
      intro si hmem hbeq
      exact habs (List.mem_map.mpr ⟨si, hmem, beq_iff_eq.mp hbeq⟩)
    simp [BinanceFuturesClient.get_symbol_info, hnone]
  · intro hmem
    obtain ⟨si, hsi, heq⟩ := List.mem_map.mp hmem
    have hsome : (symbols.find? (fun si => si.symbol == symbol)).isSome := by
      rw [List.find?_isSome]
      exact ⟨si, hsi, beq_iff_eq.mpr heq⟩
    obtain ⟨si2, hfind⟩ := Option.isSome_iff_exists.mp hsome
    have hp := List.find?_some hfind
    refine ⟨si2, ?_, List.mem_of_find?_eq_some hfind, beq_iff_eq.mp hp⟩
    simp [BinanceFuturesClient.get_symbol_info, hfind]

/-- Witness for C8 on a one-symbol exchange: `XRPUSDT` is absent and fails
with not-found; `BTCUSDT` is present and is returned. -/
theorem get_symbol_info_found_or_not_witness :
    (BinanceFuturesClient.get_symbol_info
        (.ok [⟨"BTCUSDT", "TRADING"⟩]) "XRPUSDT" =
      .error (.notFound "XRPUSDT")) ∧
    (∃ si, BinanceFuturesClient.get_symbol_info
        (.ok [⟨"BTCUSDT", "TRADING"⟩]) "BTCUSDT" = .ok si ∧
      si ∈ [(⟨"BTCUSDT", "TRADING"⟩ : SymbolInfo)] ∧ si.symbol = "BTCUSDT") :=
  ⟨(get_symbol_info_found_or_not [⟨"BTCUSDT", "TRADING"⟩] "XRPUSDT").1 (by decide),
    (get_symbol_info_found_or_not [⟨"BTCUSDT", "TRADING"⟩] "BTCUSDT").2 (by decide)⟩

/-- C9: `start` raises the running flag, `stop` lowers it, neither touches
any of the three trade counters, and `stop` returns the performance
snapshot of the resulting state alongside it (both are plain synchronous
functions). -/
theorem start_stop_flag_and_frame (s : BotState) :
    (TradingBot.start s).running = true ∧
    (TradingBot.stop s).1.running = false ∧
    (TradingBot.start s).trade_count = s.trade_count ∧
    (TradingBot.start s).successful_trades = s.successful_trades ∧
    (TradingBot.start s).failed_trades = s.failed_trades ∧
    (TradingBot.stop s).1.trade_count = s.trade_count ∧
    (TradingBot.stop s).1.successful_trades = s.successful_trades ∧
    (TradingBot.stop s).1.failed_trades = s.failed_trades ∧
    (TradingBot.stop s).2 =
      TradingBot.display_performance_metrics (TradingBot.stop s).1 :=
  ⟨rfl, rfl, rfl, rfl, rfl, rfl, rfl, rfl, rfl⟩

/-- C10: the invariant `trade_count = successful_trades + failed_trades`
holds in the freshly constructed state and is preserved by every
orchestrator operation; each order placement increments `trade_count` and
exactly one of the success/failure counters, and every other operation
leaves all counters unchanged. -/
theorem counter_invariant_preserved (s : BotState) (op : BotOp)
    (r : Except ClientError OrderResp) (lookup : Except ClientError SymbolInfo)
    (hinv : counterInv s) :
    counterInv initialBotState ∧
    counterInv (botStep s op) ∧
    (botStep s (.placeMarket r)).trade_count = s.trade_count + 1 ∧
    (botStep s (.placeMarket r)).successful_trades +
        (botStep s (.placeMarket r)).failed_trades =
      s.successful_trades + s.failed_trades + 1 ∧
    (botStep s (.placeLimit r)).trade_count = s.trade_count + 1 ∧
    (botStep s (.placeLimit r)).successful_trades +
        (botStep s (.placeLimit r)).failed_trades =
      s.successful_trades + s.failed_trades + 1 ∧
    botStep s (.cancelOrder r) = s ∧
    botStep s (.validateSymbol lookup) = s ∧
    botStep s .displayAccountInfo = s ∧
    botStep s .displayPositions = s ∧
    botStep s .displayOpenOrders = s ∧
    botStep s .displayPerformanceMetrics = s ∧
    (botStep s .start).trade_count = s.trade_count ∧
    (botStep s .start).successful_trades = s.successful_trades ∧
    (botStep s .start).failed_trades = s.failed_trades ∧
    (botStep s .stop).trade_count = s.trade_count ∧
    (botStep s .stop).successful_trades = s.successful_trades ∧
    (botStep s .stop).failed_trades = s.failed_trades := by
  refine ⟨rfl, ?_, ?_, ?_, ?_, ?_, ?_, rfl, rfl, rfl, rfl, rfl,
    rfl, rfl, rfl, rfl, rfl, rfl⟩
  · cases op with
    | placeMarket r2 =>
      cases r2 <;>
        simp only [botStep, TradingBot.place_market_order, counterInv] at hinv ⊢ <;>
        omega
    | placeLimit r2 =>
      cases r2 <;>
        simp only [botStep, TradingBot.place_limit_order, counterInv] at hinv ⊢ <;>
        omega
    | cancelOrder r2 => cases r2 <;> exact hinv
    | validateSymbol l => exact hinv
    | displayAccountInfo => exact hinv
    | displayPositions => exact hinv
    | displayOpenOrders => exact hinv
    | displayPerformanceMetrics => exact hinv
    | start => exact hinv
    | stop => exact hinv
  · cases r <;> rfl
  · cases r <;>
      simp only [botStep, TradingBot.place_market_order] <;> omega
  · cases r <;> rfl
  · cases r <;>
      simp only [botStep, TradingBot.place_limit_order] <;> omega
  · cases r <;> rfl

/-- Witness for C10: the invariant holds in the three-trade state and is
preserved across one more failed market order. -/
theorem counter_invariant_preserved_witness :
    counterInv (botStep threeTradeState (.placeMarket (.error rejectedErr))) :=
  (counter_invariant_preserved threeTradeState
    (.placeMarket (.error rejectedErr)) (.error rejectedErr)
    (.ok ⟨"BTCUSDT", "TRADING"⟩) (by decide)).2.1
